import Mathlib

/-!
Shallow embedding of `src/cache.ts` (the `SqlCache` class of
apollo-server-sql-cache) and proofs about its get/set/delete operations.

The mysql connection is modelled as an injected function from a query call
(query text plus parameters) to the pair the connection passes to its
callback: an optional error and the result rows.  Each cache operation is
a pure function returning the ordered list of query calls it issued
together with an `Except` value: `.error e` models a rejected promise,
`.ok v` a resolved one.  `Date.now()` is passed in as an explicit `now`
parameter (milliseconds).
-/

/-- A row as returned by the read query inside `get`: the stored `value`
and the computed `expiry_ts = ttl + UNIX_TIMESTAMP(created_at)` in unix
seconds. -/
structure CacheRow where
  value : String
  expiry_ts : Int
deriving DecidableEq, Repr

/-- A JS optional property of type `number`: either wholly absent from the
object, or present with a value that may itself be `undefined`
(`present none`). -/
inductive TtlField where
  | absent : TtlField
  | present : Option Nat → TtlField
deriving DecidableEq, Repr

/-- The `KeyValueCacheSetOptions` object (`\x7b ttl?: number \x7d`) passed
to `set`. -/
structure KeyValueCacheSetOptions where
  ttl : TtlField
deriving DecidableEq, Repr

/-- The parameter payload passed alongside a query text: either a
positional `?`-placeholder array, or the object `\x7b key, value, ttl \x7d`
used with the `SET ?` insert form. -/
inductive QueryData where
  | positional : List String → QueryData
  | record : String → String → Option Nat → QueryData
deriving DecidableEq, Repr

/-- One call to `client.query`: the query text and its parameters. -/
structure QueryCall where
  text : String
  data : QueryData
deriving DecidableEq, Repr

/-- The injected mysql connection: for a query call it yields the pair
`(error, results)` handed to the callback.  A `some` error means the
callback received a truthy error. -/
structure Connection (ε : Type) where
  query : QueryCall → Option ε × Option (List CacheRow)

/-- The `SqlCacheOptions` configuration object; every field is optional so
that absent properties can be modelled. -/
structure SqlCacheOptions (ε : Type) where
  client : Option (Connection ε)
  databaseName : Option String
  tableName : Option String := none
  deleteExpiredItems : Option Bool := none

/-- The `SqlCache` instance state after construction. -/
structure SqlCache (ε : Type) where
  client : Connection ε
  databaseName : String
  tableName : String
  deleteExpiredItems : Bool

/-- JS truthiness of an optional string: `undefined` and the empty string
are falsy. -/
def jsTruthy : Option String → Bool
  | none => false
  | some s => s != ""

/-- The class constant `defaultSetOptions = \x7b ttl: 300 \x7d`. -/
def SqlCache.defaultSetOptions : KeyValueCacheSetOptions :=
  { ttl := TtlField.present (some 300) }

/-- JS object spread on the `ttl` property: the right operand wins
whenever the property is present on it, even with value `undefined`. -/
def spreadTtl : TtlField → TtlField → TtlField
  | d, TtlField.absent => d
  | _, TtlField.present v => TtlField.present v

/-- Destructuring `const \x7b ttl \x7d = o`: an absent property reads as
`undefined`. -/
def readTtl : TtlField → Option Nat
  | TtlField.absent => none
  | TtlField.present v => v

/-- The `SqlCache` constructor: throws (modelled as `Except.error` with
the thrown message) when the configuration object, the client, or a
truthy `databaseName` is missing; otherwise stores the client and
database name and applies the defaults `tableName = "cache"` (kept unless
`tableName` is truthy) and `deleteExpiredItems = true` (kept unless the
option differs from `undefined`). -/
def SqlCache.construct (options : Option (SqlCacheOptions ε)) :
    Except String (SqlCache ε) :=
  match options with
  | none =>
    Except.error
      "configuration object with `client` and `databaseName` must be set when initializing SqlCache"
  | some opts =>
    match opts.client with
    | none => Except.error "`client` must be set when initializing SqlCache"
    | some cl =>
      if jsTruthy opts.databaseName then
        Except.ok
          { client := cl
            databaseName := opts.databaseName.getD ""
            tableName :=
              if jsTruthy opts.tableName then opts.tableName.getD "cache"
              else "cache"
            deleteExpiredItems := opts.deleteExpiredItems.getD true }
      else Except.error "`databaseName` must be set when initializing SqlCache"

/-- The text of the read query issued by `get` (a template literal in the
source, reproduced with its whitespace). -/
def SqlCache.getQueryText (c : SqlCache ε) : String :=
  "\n      SELECT\n        value,\n        (ttl + UNIX_TIMESTAMP(created_at)) as expiry_ts\n      FROM "
    ++ c.databaseName ++ "." ++ c.tableName
    ++ " as cacheTable\n      WHERE cacheTable.key = ?\n      "

/-- The query call issued by `get`. -/
def SqlCache.getCall (c : SqlCache ε) (key : String) : QueryCall :=
  { text := c.getQueryText, data := QueryData.positional [key] }

/-- The query call issued by `delete`. -/
def SqlCache.deleteCall (c : SqlCache ε) (key : String) : QueryCall :=
  { text :=
      "DELETE FROM " ++ c.databaseName ++ "." ++ c.tableName
        ++ " as cacheTable WHERE cacheTable.key = ?"
    data := QueryData.positional [key] }

/-- The query call issued by `set`, with the already-resolved ttl. -/
def SqlCache.setCall (c : SqlCache ε) (key value : String) (ttl : Option Nat) :
    QueryCall :=
  { text := "INSERT INTO " ++ c.databaseName ++ "." ++ c.tableName ++ " SET ?"
    data := QueryData.record key value ttl }

/-- `promisifyQuery`: runs the callback-style query and turns it into a
single result, rejecting with the error when the callback received one
and resolving with the results otherwise. -/
def SqlCache.promisifyQuery (c : SqlCache ε) (q : QueryCall) :
    Except ε (Option (List CacheRow)) :=
  match c.client.query q with
  | (some error, _) => Except.error error
  | (none, results) => Except.ok results

/-- `delete(key)`: issues one delete query for the key and resolves `true`
when it succeeds. -/
def SqlCache.delete (c : SqlCache ε) (key : String) :
    List QueryCall × Except ε Bool :=
  let q := c.deleteCall key
  ([q],
    match c.promisifyQuery q with
    | Except.error e => Except.error e
    | Except.ok _ => Except.ok true)

/-- `get(key)`: issues the read query; on a matching row it deletes the
row and returns `none` (undefined) when the expiry policy fires, and
returns the stored value otherwise; with no matching row it returns
`none`. -/
def SqlCache.get (c : SqlCache ε) (now : Int) (key : String) :
    List QueryCall × Except ε (Option String) :=
  let q := c.getCall key
  match c.promisifyQuery q with
  | Except.error e => ([q], Except.error e)
  | Except.ok data =>
    match data with
    | some (row :: _) =>
      if c.deleteExpiredItems && decide (now ≥ row.expiry_ts * 1000) then
        match c.delete key with
        | (dtrace, Except.error e) => (q :: dtrace, Except.error e)
        | (dtrace, Except.ok _) => (q :: dtrace, Except.ok none)
      else ([q], Except.ok (some row.value))
    | _ => ([q], Except.ok none)

/-- `set(key, value, options)`: resolves the ttl by spreading the default
options and the supplied options, then issues one insert query. -/
def SqlCache.set (c : SqlCache ε) (key value : String)
    (options : KeyValueCacheSetOptions) : List QueryCall × Except ε Unit :=
  let ttl := readTtl (spreadTtl SqlCache.defaultSetOptions.ttl options.ttl)
  let q := c.setCall key value ttl
  ([q],
    match c.promisifyQuery q with
    | Except.error e => Except.error e
    | Except.ok _ => Except.ok ())

/-- A connection that answers every query without error with a single
fixed row. -/
def rowConn (row : CacheRow) : Connection String :=
  { query := fun _ => (none, some [row]) }

/-- A connection that reports the same error for every query. -/
def errConn (e : String) : Connection String :=
  { query := fun _ => (some e, none) }

/-- A connection that answers every query without error with an empty
result set. -/
def emptyConn : Connection String :=
  { query := fun _ => (none, some []) }

/-- An already-expired row (`expiry_ts = 0`). -/
def expiredRow : CacheRow := { value := "stale", expiry_ts := 0 }

/-- A cache instance over a given connection with the default database and
table names and a chosen expiry-deletion policy. -/
def mkCache (conn : Connection String) (del : Bool) : SqlCache String :=
  { client := conn
    databaseName := "cache"
    tableName := "cache"
    deleteExpiredItems := del }

/-- A connection whose delete query fails while the read query succeeds
with an expired row. -/
def delFailConn : Connection String :=
  { query := fun q =>
      if q.text = "DELETE FROM cache.cache as cacheTable WHERE cacheTable.key = ?"
      then (some "delete failed", none)
      else (none, some [expiredRow]) }

/-- C1: on a row whose expiry has passed (`now ≥ expiry_ts * 1000`), with
`deleteExpiredItems` enabled and the follow-up delete succeeding, `get`
issues exactly the read query followed by one delete query parameterized
with the key, and returns absent (`none`). -/
theorem get_expired_deletes (c : SqlCache ε) (now : Int) (key : String)
    (row : CacheRow) (rest : List CacheRow) (r : Option (List CacheRow))
    (hdel : c.deleteExpiredItems = true)
    (hq : c.client.query (c.getCall key) = (none, some (row :: rest)))
    (hexp : now ≥ row.expiry_ts * 1000)
    (hdq : c.client.query (c.deleteCall key) = (none, r)) :
    c.get now key = ([c.getCall key, c.deleteCall key], Except.ok none) := by
  have hd : decide (now ≥ row.expiry_ts * 1000) = true := decide_eq_true hexp
  simp [SqlCache.get, SqlCache.promisifyQuery, SqlCache.delete, hq, hdq, hdel, hd]

/-- Witness for C1 at a concrete cache and expired row. -/
theorem get_expired_deletes_witness :
    (mkCache (rowConn expiredRow) true).get 5 "k" =
      ([(mkCache (rowConn expiredRow) true).getCall "k",
        (mkCache (rowConn expiredRow) true).deleteCall "k"], Except.ok none) :=
  get_expired_deletes (mkCache (rowConn expiredRow) true) 5 "k" expiredRow []
    (some [expiredRow]) rfl rfl (by decide) rfl

/-- C2: on a row whose expiry has passed but with `deleteExpiredItems`
disabled, `get` issues only the read query (no delete) and returns the
stale stored value. -/
theorem get_expired_no_delete (c : SqlCache ε) (now : Int) (key : String)
    (row : CacheRow) (rest : List CacheRow)
    (hdel : c.deleteExpiredItems = false)
    (hq : c.client.query (c.getCall key) = (none, some (row :: rest)))
    (hexp : now ≥ row.expiry_ts * 1000) :
    c.get now key = ([c.getCall key], Except.ok (some row.value)) := by
  simp [SqlCache.get, SqlCache.promisifyQuery, hq, hdel]

/-- Witness for C2: an expired row with the policy disabled is served
stale with no second query. -/
theorem get_expired_no_delete_witness :
    (mkCache (rowConn expiredRow) false).get 5 "k" =
      ([(mkCache (rowConn expiredRow) false).getCall "k"],
        Except.ok (some "stale")) :=
  get_expired_no_delete (mkCache (rowConn expiredRow) false) 5 "k" expiredRow []
    rfl rfl (by decide)

/-- C6: when the read query succeeds but yields no matching row (an
`undefined` or empty result set), `get` resolves with absent (`none`) and
does not reject. -/
theorem get_no_row_absent (c : SqlCache ε) (now : Int) (key : String)
    (data : Option (List CacheRow))
    (hq : c.client.query (c.getCall key) = (none, data))
    (hempty : data = none ∨ data = some []) :
    c.get now key = ([c.getCall key], Except.ok none) := by
  rcases hempty with h | h <;> subst h <;>
    simp [SqlCache.get, SqlCache.promisifyQuery, hq]

/-- Witness for C6 on a connection returning an empty result set. -/
theorem get_no_row_absent_witness :
    (mkCache emptyConn true).get 5 "k" =
      ([(mkCache emptyConn true).getCall "k"], Except.ok none) :=
  get_no_row_absent (mkCache emptyConn true) 5 "k" (some []) rfl (Or.inr rfl)

/-- C7: expiry is the inclusive test `now ≥ expiry_ts * 1000`: when the
row is strictly before its expiry instant, `get` returns the stored value
unchanged whatever `deleteExpiredItems` is; and at or past the expiry
instant with the policy enabled, `get` never returns the value. -/
theorem get_not_expired_returns_value (c : SqlCache ε) (now : Int)
    (key : String) (row : CacheRow) (rest : List CacheRow)
    (hq : c.client.query (c.getCall key) = (none, some (row :: rest))) :
    (now < row.expiry_ts * 1000 →
      c.get now key = ([c.getCall key], Except.ok (some row.value))) ∧
    (c.deleteExpiredItems = true → now ≥ row.expiry_ts * 1000 →
      (c.get now key).2 ≠ Except.ok (some row.value)) := by
  constructor
  · intro hlt
    have hd : decide (now ≥ row.expiry_ts * 1000) = false :=
      decide_eq_false (not_le.mpr hlt)
    simp [SqlCache.get, SqlCache.promisifyQuery, hq, hd]
  · intro hdel hge
    have hd : decide (now ≥ row.expiry_ts * 1000) = true := decide_eq_true hge
    simp only [SqlCache.get, SqlCache.promisifyQuery, hq, hdel, hd,
      Bool.and_self]
    rcases hdq : c.delete key with ⟨dtrace, dres⟩
    cases dres <;> simp

/-- Witness for C7 on a row expiring in the far future: the value comes
back unchanged, and the same theorem applied at the expiry instant shows
the boundary is inclusive. -/
theorem get_not_expired_returns_value_witness :
    ((mkCache (rowConn { value := "v1", expiry_ts := 9999999999999 }) true).get
        5 "k" =
      ([(mkCache (rowConn { value := "v1", expiry_ts := 9999999999999 })
          true).getCall "k"], Except.ok (some "v1"))) ∧
    ((mkCache (rowConn expiredRow) true).get 0 "k").2 ≠
      Except.ok (some "stale") :=
  ⟨(get_not_expired_returns_value
      (mkCache (rowConn { value := "v1", expiry_ts := 9999999999999 }) true)
      5 "k" { value := "v1", expiry_ts := 9999999999999 } [] rfl).1 (by decide),
   (get_not_expired_returns_value (mkCache (rowConn expiredRow) true)
      0 "k" expiredRow [] rfl).2 rfl (by decide)⟩

/-- C9: on an expired row with `deleteExpiredItems` enabled, when the
follow-up delete query reports an error, `get` rejects with exactly that
error after issuing the read query and the delete query. -/
theorem get_expired_delete_error (c : SqlCache ε) (now : Int) (key : String)
    (row : CacheRow) (rest : List CacheRow) (e : ε)
    (r : Option (List CacheRow))
    (hdel : c.deleteExpiredItems = true)
    (hq : c.client.query (c.getCall key) = (none, some (row :: rest)))
    (hexp : now ≥ row.expiry_ts * 1000)
    (hdq : c.client.query (c.deleteCall key) = (some e, r)) :
    c.get now key = ([c.getCall key, c.deleteCall key], Except.error e) := by
  have hd : decide (now ≥ row.expiry_ts * 1000) = true := decide_eq_true hexp
  simp [SqlCache.get, SqlCache.promisifyQuery, SqlCache.delete, hq, hdq, hdel,
    hd]

/-- Witness for C9 on a connection whose delete query fails. -/
theorem get_expired_delete_error_witness :
    (mkCache delFailConn true).get 5 "k" =
      ([(mkCache delFailConn true).getCall "k",
        (mkCache delFailConn true).deleteCall "k"],
        Except.error "delete failed") :=
  get_expired_delete_error (mkCache delFailConn true) 5 "k" expiredRow []
    "delete failed" none rfl (by decide) (by decide) (by decide)

/-- C8: `delete` always issues exactly one delete query parameterized with
the key, and resolves `true` whenever that query completes without error,
whether or not a row existed. -/
theorem delete_resolves_true (c : SqlCache ε) (key : String) :
    (c.delete key).1 = [c.deleteCall key] ∧
    ((c.client.query (c.deleteCall key)).1 = none →
      (c.delete key).2 = Except.ok true) := by
  refine ⟨rfl, fun h => ?_⟩
  rcases hq : c.client.query (c.deleteCall key) with ⟨err, res⟩
  rw [hq] at h
  subst h
  simp [SqlCache.delete, SqlCache.promisifyQuery, hq]

/-- Witness for C8 on a connection with an empty table: the delete query
succeeds and `delete` resolves `true`. -/
theorem delete_resolves_true_witness :
    (mkCache emptyConn true).delete "k" =
      ([(mkCache emptyConn true).deleteCall "k"], Except.ok true) := by
  have h := delete_resolves_true (mkCache emptyConn true) "k"
  exact Prod.ext h.1 (h.2 rfl)

/-- C5: each of `get`, `set` and `delete` rejects with exactly the error
the connection reports for its issued query, unmodified. -/
theorem query_error_propagates (c : SqlCache ε) (now : Int)
    (key value : String) (options : KeyValueCacheSetOptions) (e : ε) :
    ((c.client.query (c.getCall key)).1 = some e →
      c.get now key = ([c.getCall key], Except.error e)) ∧
    ((c.client.query (c.setCall key value
        (readTtl (spreadTtl SqlCache.defaultSetOptions.ttl options.ttl)))).1 =
          some e →
      c.set key value options = ([c.setCall key value
        (readTtl (spreadTtl SqlCache.defaultSetOptions.ttl options.ttl))],
        Except.error e)) ∧
    ((c.client.query (c.deleteCall key)).1 = some e →
      c.delete key = ([c.deleteCall key], Except.error e)) := by
  refine ⟨fun h => ?_, fun h => ?_, fun h => ?_⟩
  · rcases hq : c.client.query (c.getCall key) with ⟨err, res⟩
    rw [hq] at h
    subst h
    simp [SqlCache.get, SqlCache.promisifyQuery, hq]
  · rcases hq : c.client.query (c.setCall key value
        (readTtl (spreadTtl SqlCache.defaultSetOptions.ttl options.ttl))) with
      ⟨err, res⟩
    rw [hq] at h
    subst h
    simp [SqlCache.set, SqlCache.promisifyQuery, hq]
  · rcases hq : c.client.query (c.deleteCall key) with ⟨err, res⟩
    rw [hq] at h
    subst h
    simp [SqlCache.delete, SqlCache.promisifyQuery, hq]

/-- Witness for C5 on a connection that errors on every query: all three
operations reject with that error after their single query. -/
theorem query_error_propagates_witness :
    (mkCache (errConn "boom") true).get 5 "k" =
      ([(mkCache (errConn "boom") true).getCall "k"], Except.error "boom") ∧
    (mkCache (errConn "boom") true).set "k" "v" { ttl := TtlField.absent } =
      ([(mkCache (errConn "boom") true).setCall "k" "v" (some 300)],
        Except.error "boom") ∧
    (mkCache (errConn "boom") true).delete "k" =
      ([(mkCache (errConn "boom") true).deleteCall "k"],
        Except.error "boom") :=
  ⟨(query_error_propagates (mkCache (errConn "boom") true) 5 "k" "v"
      { ttl := TtlField.absent } "boom").1 rfl,
   (query_error_propagates (mkCache (errConn "boom") true) 5 "k" "v"
      { ttl := TtlField.absent } "boom").2.1 rfl,
   (query_error_propagates (mkCache (errConn "boom") true) 5 "k" "v"
      { ttl := TtlField.absent } "boom").2.2 rfl⟩

/-- C3: the ttl parameter of the insert issued by `set` is the explicit
`options.ttl` when one is supplied, and the default 300 when the options
carry no ttl property; in particular an explicit 900 overrides the
default. -/
theorem set_ttl_resolution (c : SqlCache ε) (key value : String) (t : Nat) :
    (c.set key value { ttl := TtlField.present (some t) }).1 =
      [c.setCall key value (some t)] ∧
    (c.set key value { ttl := TtlField.absent }).1 =
      [c.setCall key value (some 300)] ∧
    (c.set key value { ttl := TtlField.present (some 900) }).1 =
      [c.setCall key value (some 900)] :=
  ⟨rfl, rfl, rfl⟩

/-- C10: an options object that carries `ttl: undefined` makes the spread
override the default, so the insert's ttl parameter is `undefined`
(`none`), not 300; the default 300 applies only when the ttl property is
wholly absent. -/
theorem set_ttl_undefined_overrides (c : SqlCache ε) (key value : String) :
    (c.set key value { ttl := TtlField.present none }).1 =
      [c.setCall key value none] ∧
    [c.setCall key value none] ≠ [c.setCall key value (some 300)] ∧
    (c.set key value { ttl := TtlField.absent }).1 =
      [c.setCall key value (some 300)] := by
  refine ⟨rfl, ?_, rfl⟩
  simp [SqlCache.setCall]

/-- C4: construction fails exactly when the configuration object is
absent, the client is absent, or the database name is absent or empty;
otherwise it succeeds, and the defaults `tableName = "cache"` and
`deleteExpiredItems = true` apply whenever those options are not
supplied. -/
theorem construct_characterization (options : Option (SqlCacheOptions ε)) :
    ((SqlCache.construct options).isOk = false ↔
      (options = none ∨ ∃ opts, options = some opts ∧
        (opts.client = none ∨ opts.databaseName = none ∨
          opts.databaseName = some ""))) ∧
    (∀ opts c, options = some opts →
      SqlCache.construct options = Except.ok c →
      (opts.tableName = none → c.tableName = "cache") ∧
      (opts.deleteExpiredItems = none → c.deleteExpiredItems = true)) := by
  constructor
  · rcases options with _ | opts
    · exact ⟨fun _ => Or.inl rfl, fun _ => rfl⟩
    · rcases hcl : opts.client with _ | cl
      · refine ⟨fun _ => Or.inr ⟨opts, rfl, Or.inl hcl⟩, fun _ => ?_⟩
        simp [SqlCache.construct, hcl, Except.isOk, Except.toBool]
      · rcases hdb : opts.databaseName with _ | db
        · refine ⟨fun _ => Or.inr ⟨opts, rfl, Or.inr (Or.inl hdb)⟩,
            fun _ => ?_⟩
          simp [SqlCache.construct, hcl, hdb, jsTruthy, Except.isOk, Except.toBool]
        · by_cases hdbe : db = ""
          · subst hdbe
            refine ⟨fun _ => Or.inr ⟨opts, rfl, Or.inr (Or.inr hdb)⟩,
              fun _ => ?_⟩
            simp [SqlCache.construct, hcl, hdb, jsTruthy, Except.isOk, Except.toBool]
          · have hok : (SqlCache.construct (some opts)).isOk = true := by
              simp [SqlCache.construct, hcl, hdb, jsTruthy, hdbe, Except.isOk, Except.toBool]
            constructor
            · intro hfalse
              rw [hok] at hfalse
              exact Bool.noConfusion hfalse
            · rintro (h | ⟨opts2, heq, h⟩)
              · exact Option.noConfusion h
              · obtain rfl : opts2 = opts := (Option.some.inj heq).symm
                rcases h with h | h | h
                · rw [hcl] at h
                  exact Option.noConfusion h
                · rw [hdb] at h
                  exact Option.noConfusion h
                · rw [hdb] at h
                  exact absurd (Option.some.inj h) hdbe
  · rintro opts c rfl hok
    rcases hcl : opts.client with _ | cl
    · simp [SqlCache.construct, hcl] at hok
    · by_cases hdbt : jsTruthy opts.databaseName = true
      · have h2 : SqlCache.construct (some opts) =
            Except.ok
              { client := cl
                databaseName := opts.databaseName.getD ""
                tableName :=
                  if jsTruthy opts.tableName then opts.tableName.getD "cache"
                  else "cache"
                deleteExpiredItems := opts.deleteExpiredItems.getD true } := by
          simp [SqlCache.construct, hcl, hdbt]
        rw [h2] at hok
        obtain rfl : c = _ := (Except.ok.inj hok).symm
        constructor
        · intro htn
          simp [htn, jsTruthy]
        · intro hde
          simp [hde]
      · rw [Bool.not_eq_true] at hdbt
        simp [SqlCache.construct, hcl, hdbt] at hok

/-- Witness for C4 at the absent configuration object. -/
theorem construct_characterization_witness :
    (SqlCache.construct (ε := String) none).isOk = false :=
  (construct_characterization none).1.mpr (Or.inl rfl)
